import Mathlib

/-!
Shallow embedding of the `leafs-cl/connection_pool` repository: the MySQL
`connection` wrapper (src/unnamed/part_001, src/unnamed/part_000 lines
124-201) and the `connection_pool` class (src/include/connection_pool/
ConnectionPool.h, src/unnamed/part_000 lines 203-478).

Driver calls (mysql_init, mysql_real_connect, mysql_ping) are modelled by
boolean oracle parameters supplied at each call site; machine time is
modelled by the value the source itself computes, `getAliveTime() =
clock() - _alivetime`, carried as a natural number of clock units.  All
mutations of pool state happen under the single mutex `_queueMutex`, so a
state-transition system whose steps are the source's critical sections is
a faithful picture of the quiescent states of the pool.
-/

/-- Model of class `connection` (Connection.h): `connOpen` is whether the
`_conn` pointer is non-null, `pingOk` is whether `mysql_ping(_conn)` would
return 0 on the current handle, `aliveTime` is the value `getAliveTime()`
returns (elapsed clock units since `_alivetime`), and `sid` is an identity
tag used to track an object across pool operations. -/
structure connection where
  sid : Nat
  connOpen : Bool
  pingOk : Bool
  aliveTime : Nat
deriving DecidableEq, Repr

/-- connection::isValid (part_000 lines 189-201): returns false when `_conn`
is null, otherwise the result of `mysql_ping(_conn) == 0`.  The declared
parameter `timeout` (Connection.h line 27, default 30) does not occur in the
body. -/
def connection.isValid (c : connection) (timeout : Int) : Bool :=
  if c.connOpen = false then false else c.pingOk

/-- connection::reconnect (part_000 lines 164-187): closes the old handle,
calls mysql_init (outcome `initOk`) then mysql_real_connect (outcome
`connOk`); returns the C++ bool result together with the updated
connection.  A fresh successful connection answers pings; a failed one does
not.  `_alivetime` is not touched here. -/
def connection.reconnect (c : connection) (initOk connOk : Bool) :
    Bool × connection :=
  if initOk = false then (false, { c with connOpen := false, pingOk := false })
  else if connOk = false then (false, { c with connOpen := true, pingOk := false })
  else (true, { c with connOpen := true, pingOk := true })

/-- connection::refreshsAliveTime (Connection.h line 25): `_alivetime =
clock()`, so the elapsed idle time drops to zero. -/
def connection.refreshsAliveTime (c : connection) : connection :=
  { c with aliveTime := 0 }

/-- connection::connection (part_000 lines 129-132, mysql_init assumed to
give a handle) followed by connection::connect (part_000 lines 138-144)
with driver outcome `connOk`: a failed mysql_real_connect leaves a handle
that cannot serve pings. -/
def newConnection (sid : Nat) (connOk : Bool) : connection :=
  { sid := sid, connOpen := true, pingOk := connOk, aliveTime := 0 }

/-- Configuration fields of connection_pool (ConnectionPool.h lines 49-52),
immutable after loadConfigFile. -/
structure PoolConfig where
  initSize : Nat
  maxSize : Nat
  maxIdleTime : Nat
  connectionTimeout : Nat
deriving DecidableEq, Repr

/-- Mutable state of connection_pool, guarded by `_queueMutex`:
`connectionQue` (front of the C++ std::queue first), `connectionCnt`
(`_connectionCnt`, an int), and the `_shutdown` flag.  `handles` is a ghost
counter of issued PooledConnections whose deleter has not yet run, used to
state the counting invariant. -/
structure PoolState where
  connectionQue : List connection
  connectionCnt : Int
  handles : Nat
  shutdown : Bool
deriving DecidableEq, Repr

/-- One iteration of the critical section of
connection_pool::produceConnectionTask (part_000 lines 339-362): the
producer proceeds past its cv wait only once the queue is empty; then, if
`_connectionCnt < _maxSize`, it default-constructs a connection, calls
connect — the boolean result is ignored by the source — refreshes its alive
time, pushes it and increments `_connectionCnt`.  No test of `_shutdown`
appears anywhere in the loop, so the iteration is the same after shutdown. -/
def produceStep (cfg : PoolConfig) (connOk : Bool) (sid : Nat)
    (s : PoolState) : PoolState :=
  if s.connectionQue = [] ∧ s.connectionCnt < (cfg.maxSize : Int) then
    { s with
        connectionQue := s.connectionQue ++ [(newConnection sid connOk).refreshsAliveTime],
        connectionCnt := s.connectionCnt + 1 }
  else s

/-- Outcome of connection_pool::getconnection: either a PooledConnection
wrapping the popped connection together with the pool state at return, or
the `runtime_error` thrown when the timed wait elapses with the queue still
empty. -/
inductive AcquireResult where
  | ok (c : connection) (s : PoolState)
  | timeout (s : PoolState)
deriving DecidableEq, Repr

/-- connection_pool::getconnection (part_000 lines 365-414).  With the queue
empty, the call waits on the cv for `chrono::microseconds(_connectionTimeout)`
and, when no connection arrives during the call (the projection modelled
here), the wait ends in timeout with the queue still empty and the call
throws `runtime_error`, leaving the state untouched.  Otherwise the front
connection is popped; if `isValid()` fails, `reconnect` is attempted with
its boolean result ignored (reconnect returns false rather than throwing,
so the catch block at lines 385-388 is unreachable) and
`refreshsAliveTime` is called; the connection is then handed to the caller
in every case.  `_shutdown` is never read. -/
def getconnection (s : PoolState) (rInitOk rConnOk : Bool) : AcquireResult :=
  match s.connectionQue with
  | [] => .timeout s
  | conn :: rest =>
      let conn1 :=
        if conn.isValid 30 = false then
          ((conn.reconnect rInitOk rConnOk).2).refreshsAliveTime
        else conn
      .ok conn1 { s with connectionQue := rest, handles := s.handles + 1 }

/-- Duration handed to `cv.wait_for` in getconnection (part_000 line 370):
`chrono::microseconds(_connectionTimeout)` — the configured
`connectionTimeOut` value counts microseconds there. -/
def acquireWaitMicros (cfg : PoolConfig) : Nat := cfg.connectionTimeout

/-- Following the spec's words (§6: `connectionTimeOut | int (ms) | 100 |
acquire() deadline`): the acquire deadline the spec prescribes, expressed
in microseconds for comparison with `acquireWaitMicros`. -/
def specAcquireWaitMicros (cfg : PoolConfig) : Nat := cfg.connectionTimeout * 1000

/-- Deleter of a PooledConnection run while the pool is still alive
(part_000 lines 395-411): under the mutex, if the raw pointer is null or
`isValid()` fails, the connection is deleted and `_connectionCnt`
decremented; otherwise its alive time is refreshed and it is pushed to the
back of the queue; finally the cv is notified.  The ghost `handles`
counter drops by one since this deleter runs exactly once per issued
handle. -/
def deleterReturn (s : PoolState) (c : Option connection) : PoolState :=
  match c with
  | none =>
      { s with connectionCnt := s.connectionCnt - 1, handles := s.handles - 1 }
  | some p =>
      if p.isValid 30 = false then
        { s with connectionCnt := s.connectionCnt - 1, handles := s.handles - 1 }
      else
        { s with connectionQue := s.connectionQue ++ [p.refreshsAliveTime],
                 handles := s.handles - 1 }

/-- Treatment of one drained queue element inside
connection_pool::scanRunningConnectionTask (part_000 lines 427-451): an
invalid connection is reconnected (combined driver outcome `recOk`; on
failure `_connectionCnt` is decremented and the element dropped); then, if
`getAliveTime() >= _maxIdleTime * 1000` and `_connectionCnt > _initSize`,
the element is dropped and `_connectionCnt` decremented; otherwise it is
kept.  Reconnect does not refresh `_alivetime`. -/
def scanStep (cfg : PoolConfig) (recOk : Bool) (cnt : Int) (c : connection) :
    Option connection × Int :=
  if c.isValid 30 = false then
    if recOk = false then (none, cnt - 1)
    else if cfg.maxIdleTime * 1000 ≤ ((c.reconnect true true).2).aliveTime ∧
        (cfg.initSize : Int) < cnt then
      (none, cnt - 1)
    else (some ((c.reconnect true true).2), cnt)
  else
    if cfg.maxIdleTime * 1000 ≤ c.aliveTime ∧ (cfg.initSize : Int) < cnt then
      (none, cnt - 1)
    else (some c, cnt)

/-- One full pass of scanRunningConnectionTask over the drained queue
(part_000 lines 421-461): elements are processed in FIFO order and the kept
ones are pushed back in their original relative order; afterwards, when
`_connectionCnt < _initSize`, the cv is notified so the producer can top
up.  `recOk` supplies the reconnect outcome per connection. -/
def scanPass (cfg : PoolConfig) (recOk : connection → Bool) :
    List connection → Int → List connection × Int
  | [], cnt => ([], cnt)
  | c :: rest, cnt =>
      match scanStep cfg (recOk c) cnt c with
      | (none, cnt1) => scanPass cfg recOk rest cnt1
      | (some c1, cnt1) =>
          let r := scanPass cfg recOk rest cnt1
          (c1 :: r.1, r.2)

/-- connection_pool::shutdown (part_000 lines 467-475): under the mutex,
store true into `_shutdown` and pop the queue until it is empty, destroying
the queued connections.  Nothing else happens: no cv notification and no
thread join — both background threads were detached at construction
(part_000 lines 235 and 238). -/
def shutdownStep (s : PoolState) : PoolState :=
  { s with shutdown := true, connectionQue := [] }

/-- Result of running the connection_pool constructor: the state it leaves
behind and whether the background threads were started.  The constructor
returns normally in every case. -/
structure CtorResult where
  state : PoolState
  threadsStarted : Bool
deriving DecidableEq, Repr

/-- connection_pool::connection_pool (part_000 lines 207-239): when
loadConfigFile fails the constructor logs and returns early — no exception,
no connections, threads not started.  Otherwise it constructs `_initSize`
connections, calling connect on each with the boolean result ignored,
refreshes each alive time, pushes all of them, leaves `_connectionCnt =
_initSize`, and detaches the producer and scanner threads. -/
def poolCtor (cfg : PoolConfig) (configLoadOk : Bool) (connOk : Nat → Bool) :
    CtorResult :=
  if configLoadOk = false then
    { state := { connectionQue := [], connectionCnt := 0, handles := 0,
                 shutdown := false },
      threadsStarted := false }
  else
    { state := { connectionQue :=
                   (List.range cfg.initSize).map
                     fun i => (newConnection i (connOk i)).refreshsAliveTime,
                 connectionCnt := (cfg.initSize : Int), handles := 0,
                 shutdown := false },
      threadsStarted := true }

/-- connection_pool::loadConfigFile (part_000 lines 249-335): with a usable
ConfigManager the result is that of `loadConfig`; when createConfigManager
throws, a fallback plain key=value parser runs, which fails only when
`fopen` cannot open the file and reports success otherwise. -/
def loadConfigFile (managerCreated managerLoadOk fileOpens : Bool) : Bool :=
  if managerCreated then managerLoadOk else fileOpens

/-- PooledConnection (ConnectionPool.h line 24) is
`std::unique_ptr<connection, std::function<void(connection*)>>`: it stores
a possibly-null owned pointer to the borrowed connection. -/
structure PooledConnection where
  owned : Option connection
deriving DecidableEq, Repr

/-- std::unique_ptr::release, the detach operation available on a
PooledConnection: it returns the stored pointer and replaces it with null.
The deleter is not invoked and the pointed-to connection is not destroyed;
ownership passes raw to the caller. -/
def PooledConnection.release (h : PooledConnection) :
    Option connection × PooledConnection :=
  (h.owned, { owned := none })

/-- std::unique_ptr destructor behaviour for a PooledConnection: the stored
deleter — the pool's return protocol, `deleterReturn` — runs exactly when
the stored pointer is non-null. -/
def PooledConnection.dtorRunsDeleter (h : PooledConnection) : Bool :=
  h.owned.isSome

/-- Events that mutate the pool state under `_queueMutex` during the pool's
lifetime: one producer iteration, one getconnection call, one handle
deleter running while the pool is alive, one scavenger pass. -/
inductive PoolEvent where
  | produce (connOk : Bool) (sid : Nat)
  | acquire (rInitOk rConnOk : Bool)
  | giveBack (c : Option connection)
  | scavenge (recOk : connection → Bool)

/-- Effect of one event on the pool state, assembled from the
per-operation embeddings.  A deleter can only run while some handle is
outstanding. -/
def step (cfg : PoolConfig) (s : PoolState) : PoolEvent → PoolState
  | .produce connOk sid => produceStep cfg connOk sid s
  | .acquire rI rC =>
      match getconnection s rI rC with
      | .ok _ s1 => s1
      | .timeout s1 => s1
  | .giveBack c => if 0 < s.handles then deleterReturn s c else s
  | .scavenge recOk =>
      { s with
          connectionQue := (scanPass cfg recOk s.connectionQue s.connectionCnt).1,
          connectionCnt := (scanPass cfg recOk s.connectionQue s.connectionCnt).2 }

/-- Pool states reachable from a freshly constructed pool by any
interleaving of producer iterations, acquires, handle returns and
scavenger passes.  connection_pool::shutdown is private and invoked only
by the destructor (part_000 lines 477-478), so it marks the end of the
pool's lifetime; it is modelled separately as `shutdownStep`. -/
inductive Reachable (cfg : PoolConfig) : PoolState → Prop
  | init (configLoadOk : Bool) (connOk : Nat → Bool) :
      Reachable cfg (poolCtor cfg configLoadOk connOk).state
  | next (s : PoolState) (e : PoolEvent) :
      Reachable cfg s → Reachable cfg (step cfg s e)

/-- Concrete configuration used for witnesses and counterexamples; the
sizes satisfy initSize ≤ maxSize as the spec's defaults (5 and 10) do, and
connectionTimeout is the spec's default 100. -/
def cfgA : PoolConfig :=
  { initSize := 2, maxSize := 4, maxIdleTime := 60, connectionTimeout := 100 }

/-- Pool state holding a single pooled connection whose driver handle no
longer answers pings. -/
def poolStateB : PoolState :=
  { connectionQue := [{ sid := 0, connOpen := true, pingOk := false, aliveTime := 0 }],
    connectionCnt := 1, handles := 0, shutdown := false }

/-- Running pool state with one healthy pooled connection, about to be shut
down. -/
def poolStateC : PoolState :=
  { connectionQue := [{ sid := 1, connOpen := true, pingOk := true, aliveTime := 0 }],
    connectionCnt := 1, handles := 0, shutdown := false }

/-- Pool state with an empty queue and one outstanding handle, as seen by a
producer iteration that proceeds past its wait. -/
def poolStateE : PoolState :=
  { connectionQue := [], connectionCnt := 1, handles := 1, shutdown := false }

/-- Pool state with an empty queue and nothing outstanding. -/
def emptyPoolState : PoolState :=
  { connectionQue := [], connectionCnt := 0, handles := 0, shutdown := false }

/-- Healthy borrowed connection for the handle exhibits. -/
def connR : connection :=
  { sid := 3, connOpen := true, pingOk := true, aliveTime := 0 }

/-- Live handle owning `connR`. -/
def handleR : PooledConnection := { owned := some connR }

/-- Healthy connection that has been idle for exactly 60000 clock units,
the source's trim threshold for maxIdleTime = 60. -/
def connOld : connection :=
  { sid := 9, connOpen := true, pingOk := true, aliveTime := 60000 }

/-- Healthy, recently used connection. -/
def connH : connection :=
  { sid := 4, connOpen := true, pingOk := true, aliveTime := 5 }

/-- Case analysis for one scavenger element: the element is either dropped
with the count decremented, or kept with the count unchanged and its
identity preserved. -/
theorem scanStep_cases (cfg : PoolConfig) (rOk : Bool) (cnt : Int)
    (c : connection) :
    scanStep cfg rOk cnt c = (none, cnt - 1) ∨
      ∃ c1, scanStep cfg rOk cnt c = (some c1, cnt) ∧ c1.sid = c.sid := by
  unfold scanStep
  split_ifs <;>
    first
      | exact Or.inl rfl
      | exact Or.inr ⟨_, rfl, rfl⟩

/-- Behaviour of one scavenger element when the connection is healthy: it
is dropped exactly when it is old enough and the running count exceeds
initSize; otherwise it is kept unchanged. -/
theorem scanStep_healthy (cfg : PoolConfig) (rOk : Bool) (cnt : Int)
    (c : connection) (hc : c.isValid 30 = true) :
    (scanStep cfg rOk cnt c = (none, cnt - 1) ∧
        cfg.maxIdleTime * 1000 ≤ c.aliveTime ∧ (cfg.initSize : Int) < cnt) ∨
      scanStep cfg rOk cnt c = (some c, cnt) := by
  have hcf : ¬ (c.isValid 30 = false) := by simp [hc]
  unfold scanStep
  rw [if_neg hcf]
  split_ifs with h2
  · exact Or.inl ⟨rfl, h2.1, h2.2⟩
  · exact Or.inr rfl

theorem scanPass_nil (cfg : PoolConfig) (recOk : connection → Bool)
    (cnt : Int) : scanPass cfg recOk [] cnt = ([], cnt) := rfl

theorem scanPass_cons_drop (cfg : PoolConfig) (recOk : connection → Bool)
    (c : connection) (rest : List connection) (cnt : Int)
    (h : scanStep cfg (recOk c) cnt c = (none, cnt - 1)) :
    scanPass cfg recOk (c :: rest) cnt = scanPass cfg recOk rest (cnt - 1) := by
  simp only [scanPass, h]

theorem scanPass_cons_keep (cfg : PoolConfig) (recOk : connection → Bool)
    (c c1 : connection) (rest : List connection) (cnt : Int)
    (h : scanStep cfg (recOk c) cnt c = (some c1, cnt)) :
    scanPass cfg recOk (c :: rest) cnt =
      (c1 :: (scanPass cfg recOk rest cnt).1, (scanPass cfg recOk rest cnt).2) := by
  simp only [scanPass, h]

/-- Over one scavenger pass, the count drops by exactly the number of
dropped elements, and never increases. -/
theorem scanPass_cnt_len (cfg : PoolConfig) (recOk : connection → Bool)
    (l : List connection) : ∀ cnt : Int,
    (scanPass cfg recOk l cnt).2 + l.length =
        cnt + ((scanPass cfg recOk l cnt).1.length : Int) ∧
      (scanPass cfg recOk l cnt).2 ≤ cnt := by
  induction l with
  | nil => intro cnt; simp [scanPass_nil]
  | cons c rest ih =>
      intro cnt
      rcases scanStep_cases cfg (recOk c) cnt c with h | ⟨c1, h, _⟩
      · rw [scanPass_cons_drop cfg recOk c rest cnt h]
        have ihr := ih (cnt - 1)
        simp only [List.length_cons]
        push_cast
        omega
      · rw [scanPass_cons_keep cfg recOk c c1 rest cnt h]
        have ihr := ih cnt
        simp only [List.length_cons]
        push_cast
        omega

/-- The identities of the kept elements of a scavenger pass form a
subsequence of the input identities: original relative order is
preserved. -/
theorem scanPass_sid_sublist (cfg : PoolConfig) (recOk : connection → Bool)
    (l : List connection) : ∀ cnt : Int,
    ((scanPass cfg recOk l cnt).1.map connection.sid).Sublist
      (l.map connection.sid) := by
  induction l with
  | nil => intro cnt; simp [scanPass_nil]
  | cons c rest ih =>
      intro cnt
      rcases scanStep_cases cfg (recOk c) cnt c with h | ⟨c1, h, hsid⟩
      · rw [scanPass_cons_drop cfg recOk c rest cnt h]
        simp only [List.map_cons]
        exact List.Sublist.cons c.sid (ih (cnt - 1))
      · rw [scanPass_cons_keep cfg recOk c c1 rest cnt h]
        simp only [List.map_cons, hsid]
        exact List.Sublist.cons₂ c.sid (ih cnt)

/-- On an all-healthy queue the scavenger never trims the count below
min(initial count, initSize). -/
theorem scanPass_healthy_min (cfg : PoolConfig) (recOk : connection → Bool)
    (l : List connection) : ∀ cnt : Int, (∀ x ∈ l, x.isValid 30 = true) →
    min cnt (cfg.initSize : Int) ≤ (scanPass cfg recOk l cnt).2 := by
  induction l with
  | nil => intro cnt _; simp [scanPass_nil, min_le_left]
  | cons c rest ih =>
      intro cnt hh
      have hc : c.isValid 30 = true := hh c (by simp)
      have hrest : ∀ x ∈ rest, x.isValid 30 = true := by
        intro x hx; exact hh x (by simp [hx])
      rcases scanStep_healthy cfg (recOk c) cnt c hc with ⟨hd, _, hi⟩ | hk
      · rw [scanPass_cons_drop cfg recOk c rest cnt hd]
        have ihr := ih (cnt - 1) hrest
        rw [min_eq_right (by omega)]
        rw [min_eq_right (by omega)] at ihr
        exact ihr
      · rw [scanPass_cons_keep cfg recOk c c rest cnt hk]
        exact ih cnt hrest

/-- Shape of a getconnection call on an empty queue: the timeout branch,
with the state untouched. -/
theorem getconnection_timeout_state (s : PoolState) (rI rC : Bool)
    (h : s.connectionQue = []) : getconnection s rI rC = .timeout s := by
  unfold getconnection
  rw [h]

/-- Shape of a getconnection call on a non-empty queue: some connection is
handed out, the queue loses its front and one more handle is outstanding. -/
theorem getconnection_ok_state (s : PoolState) (rI rC : Bool)
    (c : connection) (rest : List connection)
    (h : s.connectionQue = c :: rest) :
    ∃ c1, getconnection s rI rC =
      .ok c1 { s with connectionQue := rest, handles := s.handles + 1 } := by
  unfold getconnection
  rw [h]
  exact ⟨_, rfl⟩

/-- Each event of the transition system preserves the counting invariant
and the maxSize bound. -/
theorem step_preserves_inv (cfg : PoolConfig) (s : PoolState) (e : PoolEvent)
    (h : (s.connectionQue.length : Int) + s.handles = s.connectionCnt ∧
      s.connectionCnt ≤ (cfg.maxSize : Int)) :
    ((step cfg s e).connectionQue.length : Int) + (step cfg s e).handles =
        (step cfg s e).connectionCnt ∧
      (step cfg s e).connectionCnt ≤ (cfg.maxSize : Int) := by
  obtain ⟨h1, h2⟩ := h
  cases e with
  | produce connOk sid =>
      simp only [step, produceStep]
      split_ifs with hg
      · simp only [List.length_append, List.length_cons, List.length_nil]
        push_cast
        omega
      · exact ⟨h1, h2⟩
  | acquire rI rC =>
      cases hq : s.connectionQue with
      | nil =>
          have hg := getconnection_timeout_state s rI rC hq
          simp only [step, hg]
          exact ⟨h1, h2⟩
      | cons c rest =>
          obtain ⟨c1, hg⟩ := getconnection_ok_state s rI rC c rest hq
          simp only [step, hg]
          rw [hq] at h1
          simp only [List.length_cons] at h1
          push_cast at h1 ⊢
          omega
  | giveBack c =>
      simp only [step]
      split_ifs with hh
      · cases c with
        | none =>
            simp only [deleterReturn]
            omega
        | some p =>
            simp only [deleterReturn]
            split_ifs with hp
            · push_cast
              omega
            · simp only [List.length_append, List.length_cons, List.length_nil]
              push_cast
              omega
      · exact ⟨h1, h2⟩
  | scavenge recOk =>
      simp only [step]
      have hs := scanPass_cnt_len cfg recOk s.connectionQue s.connectionCnt
      constructor
      · omega
      · omega

/-- C1: in every reachable quiescent pool state (initSize ≤ maxSize, as
with the defaults 5 and 10), the number of sessions in the idle queue plus
the number held by live handles equals `_connectionCnt`, which is
non-negative and at most `_maxSize`; in particular the producer, which
increments only after checking `_connectionCnt < _maxSize` under the
mutex, never pushes the total above `_maxSize` no matter how the
acquirers, returners and the scavenger interleave. -/
theorem pool_counting_invariant (cfg : PoolConfig)
    (hcfg : cfg.initSize ≤ cfg.maxSize)
    (s : PoolState) (hs : Reachable cfg s) :
    (s.connectionQue.length : Int) + s.handles = s.connectionCnt ∧
      0 ≤ s.connectionCnt ∧ s.connectionCnt ≤ (cfg.maxSize : Int) := by
  have key : (s.connectionQue.length : Int) + s.handles = s.connectionCnt ∧
      s.connectionCnt ≤ (cfg.maxSize : Int) := by
    induction hs with
    | init configLoadOk connOk =>
        unfold poolCtor
        split_ifs
        · simp
        · simp only [List.length_map, List.length_range]
          constructor
          · simp
          · exact_mod_cast hcfg
    | next s e _ ih => exact step_preserves_inv cfg s e ih
  refine ⟨key.1, ?_, key.2⟩
  have := key.1
  omega

theorem pool_counting_invariant_witness :
    ((poolCtor cfgA true fun _ => true).state.connectionQue.length : Int) +
        (poolCtor cfgA true fun _ => true).state.handles =
        (poolCtor cfgA true fun _ => true).state.connectionCnt ∧
      0 ≤ (poolCtor cfgA true fun _ => true).state.connectionCnt ∧
      (poolCtor cfgA true fun _ => true).state.connectionCnt ≤
        (cfgA.maxSize : Int) :=
  pool_counting_invariant cfgA (by decide) _ (Reachable.init true fun _ => true)

/-- C2 exhibit: a getconnection call that pops a session failing isValid
and whose reconnect fails (mysql_real_connect returns null) still hands
that session to the caller — the session returned fails isValid at the
moment of return, and `_connectionCnt` is not decremented, no destroy, no
restart of the wait loop.  The source ignores reconnect's boolean result
(part_000 line 383); only a C++ exception would reach the decrement at
line 386, and reconnect reports failure by returning false, not by
throwing. -/
theorem acquire_returns_unhealthy_session :
    getconnection poolStateB true false =
      AcquireResult.ok
        { sid := 0, connOpen := true, pingOk := false, aliveTime := 0 }
        { connectionQue := [], connectionCnt := 1, handles := 1,
          shutdown := false } ∧
    connection.isValid
      { sid := 0, connOpen := true, pingOk := false, aliveTime := 0 } 30 =
      false := by
  constructor
  · rfl
  · rfl

/-- C3 counterexample: at the default connectionTimeOut = 100 the duration
the source passes to cv.wait_for is 100 microseconds, not the 100
milliseconds the claim's millisecond reading prescribes (part_000 line 370
constructs chrono::microseconds). -/
theorem acquire_timeout_unit_mismatch :
    acquireWaitMicros cfgA ≠ specAcquireWaitMicros cfgA := by decide

/-- C3 (amended): on an empty idle queue with no session arriving during
the call, getconnection waits up to `acquireWaitMicros` — the
connectionTimeOut config value interpreted in MICROseconds (default 100)
— and then fails by throwing runtime_error, leaving the pool state exactly
as it was before the call. -/
theorem acquire_empty_times_out (cfg : PoolConfig) (s : PoolState)
    (rI rC : Bool) (h : s.connectionQue = []) :
    getconnection s rI rC = .timeout s ∧
      acquireWaitMicros cfg = cfg.connectionTimeout := by
  exact ⟨getconnection_timeout_state s rI rC h, rfl⟩

theorem acquire_empty_times_out_witness :
    getconnection emptyPoolState true true = .timeout emptyPoolState ∧
      acquireWaitMicros cfgA = cfgA.connectionTimeout :=
  acquire_empty_times_out cfgA emptyPoolState true true rfl

/-- C4 exhibit: getconnection never reads `_shutdown`.  After shutdownStep
on a running pool the flag is set and the queue drained; an acquire then
runs the ordinary empty-queue path — a timed wait ending in the
runtime_error of the timeout branch, not a PoolClosed failure before the
wait.  Worse, the producer (which also never reads the flag) can refill
the queue after shutdown, after which an acquire happily hands out a
session. -/
theorem acquire_ignores_shutdown :
    (shutdownStep poolStateC).shutdown = true ∧
    getconnection (shutdownStep poolStateC) true true =
      .timeout (shutdownStep poolStateC) ∧
    (produceStep cfgA true 5 (shutdownStep poolStateC)).shutdown = true ∧
    getconnection (produceStep cfgA true 5 (shutdownStep poolStateC)) true true =
      AcquireResult.ok (newConnection 5 true)
        { connectionQue := [], connectionCnt := 2, handles := 1,
          shutdown := true } := by
  refine ⟨rfl, rfl, ?_, ?_⟩ <;> decide

/-- C5 counterexample: with every initial open failing, the constructor
still returns normally, enqueues initSize session objects and counts them
— the pool starts degraded, every pooled session failing isValid; and with
loadConfigFile failing the constructor also returns normally, with an
empty pool and no background threads, instead of propagating the failure
out of getconnect_pool. -/
theorem ctor_swallows_failures :
    ((poolCtor cfgA true fun _ => false).state.connectionQue.length =
        cfgA.initSize ∧
      (poolCtor cfgA true fun _ => false).state.connectionCnt =
        (cfgA.initSize : Int) ∧
      ∀ c ∈ (poolCtor cfgA true fun _ => false).state.connectionQue,
        c.isValid 30 = false) ∧
    ((poolCtor cfgA false fun _ => true).threadsStarted = false ∧
      (poolCtor cfgA false fun _ => true).state.connectionQue = []) := by
  decide

/-- C5 (amended): construction always returns normally.  On config-load
success it enqueues exactly initSize sessions with `_connectionCnt` =
initSize — regardless of whether each synchronous open succeeded — and
starts the two detached threads; on config-load failure it logs and
returns early with an empty queue, count 0 and no threads.  Moreover the
fallback key=value parser makes loadConfigFile report success whenever the
file merely opens, so even a createConfigManager failure need not fail the
load. -/
theorem ctor_behaviour (cfg : PoolConfig) (connOk : Nat → Bool) :
    ((poolCtor cfg true connOk).state.connectionQue.length = cfg.initSize ∧
      (poolCtor cfg true connOk).state.connectionCnt = (cfg.initSize : Int) ∧
      (poolCtor cfg true connOk).threadsStarted = true) ∧
    ((poolCtor cfg false connOk).state.connectionQue = [] ∧
      (poolCtor cfg false connOk).state.connectionCnt = 0 ∧
      (poolCtor cfg false connOk).threadsStarted = false) ∧
    loadConfigFile false false true = true := by
  unfold poolCtor loadConfigFile
  simp

/-- C6 counterexample: a producer iteration whose connect fails — queue
observed empty, count 1 below maxSize 4 — still pushes the freshly created
(invalid) session and still increments `_connectionCnt`, contradicting the
claim that a failed open is neither counted nor enqueued. -/
theorem producer_counts_failed_open :
    (produceStep cfgA false 7 poolStateE).connectionCnt =
        poolStateE.connectionCnt + 1 ∧
    (produceStep cfgA false 7 poolStateE).connectionQue =
        [newConnection 7 false] ∧
    (newConnection 7 false).isValid 30 = false := by
  decide

/-- C6 (amended): in every producer iteration where total < maxSize and the
idle queue has been observed empty, the source pushes the new session and
increments total regardless of whether the open succeeded — the connect
result is ignored (part_000 line 354), no warning is logged, and a failed
open is only detected by a later isValid probe at borrow or scavenge
time. -/
theorem producer_step_always_counts (cfg : PoolConfig) (connOk : Bool)
    (sid : Nat) (s : PoolState) (hq : s.connectionQue = [])
    (hc : s.connectionCnt < (cfg.maxSize : Int)) :
    (produceStep cfg connOk sid s).connectionQue =
        s.connectionQue ++ [(newConnection sid connOk).refreshsAliveTime] ∧
      (produceStep cfg connOk sid s).connectionCnt = s.connectionCnt + 1 := by
  unfold produceStep
  rw [if_pos ⟨hq, hc⟩]
  exact ⟨rfl, rfl⟩

theorem producer_step_always_counts_witness :
    (produceStep cfgA false 7 poolStateE).connectionQue =
        poolStateE.connectionQue ++
          [(newConnection 7 false).refreshsAliveTime] ∧
      (produceStep cfgA false 7 poolStateE).connectionCnt =
        poolStateE.connectionCnt + 1 :=
  producer_step_always_counts cfgA false 7 poolStateE rfl (by decide)

/-- C7: in a scavenger pass, a healthy session is dropped (with the count
decremented) only when its idle time has reached `_maxIdleTime * 1000`
clock units — the source's encoding of max_idle_time seconds — AND the
running count exceeds initSize, so the count after the drop is still at
least initSize; over a whole pass on healthy sessions the final count
never falls below min(initial count, initSize); and the kept sessions are
pushed back into the queue preserving their original relative order. -/
theorem scavenger_trim (cfg : PoolConfig) (recOk : connection → Bool)
    (l : List connection) (cnt : Int) (c : connection) (rOk : Bool)
    (hc : c.isValid 30 = true)
    (hdrop : (scanStep cfg rOk cnt c).1 = none)
    (hheal : ∀ x ∈ l, x.isValid 30 = true) :
    (cfg.maxIdleTime * 1000 ≤ c.aliveTime ∧ (cfg.initSize : Int) < cnt ∧
      (scanStep cfg rOk cnt c).2 = cnt - 1) ∧
    min cnt (cfg.initSize : Int) ≤ (scanPass cfg recOk l cnt).2 ∧
    ((scanPass cfg recOk l cnt).1.map connection.sid).Sublist
      (l.map connection.sid) := by
  refine ⟨?_, scanPass_healthy_min cfg recOk l cnt hheal,
    scanPass_sid_sublist cfg recOk l cnt⟩
  rcases scanStep_healthy cfg rOk cnt c hc with ⟨he, hold, hi⟩ | hk
  · exact ⟨hold, hi, by rw [he]⟩
  · rw [hk] at hdrop
    exact absurd hdrop (by simp)

theorem scavenger_trim_witness :
    (cfgA.maxIdleTime * 1000 ≤ connOld.aliveTime ∧
      (cfgA.initSize : Int) < 3 ∧
      (scanStep cfgA true 3 connOld).2 = 3 - 1) ∧
    min 3 (cfgA.initSize : Int) ≤ (scanPass cfgA (fun _ => true) [connH] 3).2 ∧
    ((scanPass cfgA (fun _ => true) [connH] 3).1.map connection.sid).Sublist
      ([connH].map connection.sid) :=
  scavenger_trim cfgA (fun _ => true) [connH] 3 connOld true (by decide)
    (by decide) (by decide)

/-- C8 exhibit: shutdown only stores true into `_shutdown` and drains the
queue; it performs no cv notification and no join — the threads were
detached at construction, so the destructor cannot await them.  And the
producer does not exit once shutdown is true: its loop body never reads
the flag, so a producer iteration on the post-shutdown state still
manufactures a session and increments the count. -/
theorem shutdown_producer_keeps_running :
    shutdownStep poolStateC =
      { connectionQue := [], connectionCnt := 1, handles := 0,
        shutdown := true } ∧
    (produceStep cfgA true 5 (shutdownStep poolStateC)).connectionQue =
      [newConnection 5 true] ∧
    (produceStep cfgA true 5 (shutdownStep poolStateC)).connectionCnt = 2 := by
  decide

/-- C9 counterexample: release() on a live handle returns the still-live
session pointer to the caller — the session is not destroyed, it is handed
back raw — and the deleter is never invoked: the emptied handle's
destructor will not run the return protocol either. -/
theorem release_does_not_destroy :
    handleR.release = (some connR, { owned := none }) ∧
    (handleR.release).2.dtorRunsDeleter = false := by
  decide

/-- C9 (amended): calling release() on a live Handle detaches the handle,
transferring the raw session pointer to the caller WITHOUT destroying the
session, and the return protocol never runs for that handle afterwards:
release does not invoke the deleter, and the detached handle's destructor
will not invoke it either. -/
theorem release_detaches (h : PooledConnection) :
    h.release.1 = h.owned ∧ h.release.2.owned = none ∧
      h.release.2.dtorRunsDeleter = false :=
  ⟨rfl, rfl, rfl⟩

/-- C10: connection::isValid never reads its timeout parameter (declared
with default 30 at Connection.h line 27), so for every connection state its
outcome is identical under any two timeout arguments. -/
theorem isValid_timeout_independent (c : connection) (t1 t2 : Int) :
    c.isValid t1 = c.isValid t2 := rfl
